import Mathlib

/-!
Verification of the AppRole secret-id rotation engine of
`vault/vault_approle_cli.py`.

Shallow embedding conventions:
* Python `datetime` instants and second counts are modelled as exact
  rationals (`ℚ`); every comparison and division the code performs on
  them is order-preservingly mirrored.
* A Python value that may be `None` is an `Option`.
* Code that can raise returns `Except`: `PyErr` collects the exception
  kinds the modelled code paths can raise (`TypeError`,
  `ZeroDivisionError`, and the script's own `VaultException`).
* HTTP traffic is modelled by passing the response a call would receive
  as an explicit argument (`HttpResp`); `HttpResp.ok` mirrors
  `requests.Response.ok`, which is true exactly when
  `raise_for_status()` would not raise, i.e. when the status code is
  outside `[400, 600)`.
-/

namespace VaultApproleCli

section Engine

attribute [local semireducible] Rat.add Rat.sub Rat.mul Rat.inv Rat.ofScientific

/-- The script's `VaultException(status_code, url, text)`. -/
structure VaultException where
  status_code : Nat
  url : String
  text : String
deriving DecidableEq, Repr

/-- Exception kinds raised by the modelled code paths. -/
inductive PyErr where
  | typeError
  | zeroDivisionError
  | valueError (msg : String)
  | vault (e : VaultException)
deriving DecidableEq, Repr

instance {ε α : Type} [DecidableEq ε] [DecidableEq α] :
    DecidableEq (Except ε α) := fun x y =>
  match x, y with
  | .ok a, .ok b =>
    if h : a = b then .isTrue (by rw [h]) else .isFalse (by simp [h])
  | .error a, .error b =>
    if h : a = b then .isTrue (by rw [h]) else .isFalse (by simp [h])
  | .ok _, .error _ => .isFalse (by simp)
  | .error _, .ok _ => .isFalse (by simp)

/-- An HTTP response as the `requests` library hands it back: status
code, the decoded `data.keys` list for list-shaped endpoints, and the
raw body text. -/
structure HttpResp where
  status : Nat
  keys : List String
  text : String
deriving DecidableEq, Repr

/-- Mirrors `requests.Response.ok`: true iff `raise_for_status()` would
not raise, i.e. the status code is outside `[400, 600)`. -/
def HttpResp.respOk (r : HttpResp) : Bool :=
  decide (r.status < 400 ∨ 600 ≤ r.status)

/-- Embeds `ValidityPeriodRotationStrategy.__init__`: values outside
`[10, 90]` raise `ValueError`, otherwise the value is stored as
`self.min_validity_period`. -/
def ValidityPeriodRotationStrategy.init (min_validity_period : Int) :
    Except PyErr Int :=
  if min_validity_period < 10 ∨ 90 < min_validity_period then
    .error (.valueError
      ("min_lifetime_percentage should be [10, 90] but is: "
        ++ toString min_validity_period))
  else
    .ok min_validity_period

/-- The body of the `try:` block of
`ValidityPeriodRotationStrategy.rotate`. Subtracting `None` datetimes
raises `TypeError`; the float division
`seconds_until_expiration * 100. / lifetime_seconds` raises
`ZeroDivisionError` when `lifetime_seconds` is zero. -/
def ValidityPeriodRotationStrategy.rotateBody (min_validity_period : Int)
    (creation_time expiration_time : Option ℚ) (now : ℚ) :
    Except PyErr Bool :=
  match creation_time, expiration_time with
  | some c, some e =>
    let lifetime_seconds := e - c
    let seconds_until_expiration := e - now
    if seconds_until_expiration ≤ 0 then .ok true
    else if lifetime_seconds = 0 then .error .zeroDivisionError
    else .ok (decide
      (seconds_until_expiration * 100 / lifetime_seconds
        ≤ (min_validity_period : ℚ)))
  | _, _ => .error .typeError

/-- Embeds `ValidityPeriodRotationStrategy.rotate`: the `except
TypeError` handler turns a `TypeError` into `return True`; every other
exception (in particular `ZeroDivisionError`) escapes. -/
def ValidityPeriodRotationStrategy.rotate (min_validity_period : Int)
    (creation_time expiration_time : Option ℚ) (now : ℚ) :
    Except PyErr Bool :=
  match ValidityPeriodRotationStrategy.rotateBody min_validity_period
      creation_time expiration_time now with
  | .error .typeError => .ok true
  | r => r

example : ValidityPeriodRotationStrategy.rotate 50 none none 0 = .ok true := rfl
example : ValidityPeriodRotationStrategy.rotate 50 (some 0) (some 100) 80 = .ok true := by decide
example : ValidityPeriodRotationStrategy.rotate 50 (some 0) (some 100) 10 = .ok false := by decide
example : ValidityPeriodRotationStrategy.rotate 50 (some 100) (some 100) 50 =
    .error .zeroDivisionError := by decide
example : ValidityPeriodRotationStrategy.init 100 = .error (.valueError
  "min_lifetime_percentage should be [10, 90] but is: 100") := rfl
example : ValidityPeriodRotationStrategy.init 34 = .ok 34 := rfl

/-- C4: constructing `ValidityPeriodRotationStrategy` with any
`min_validity_period` strictly below 10 or strictly above 90 fails with
a configuration error (`ValueError`), and constructing it with any value
in the closed interval `[10, 90]` succeeds, storing that value as the
threshold. -/
theorem c4_constructor_validates_min_validity (m : Int) :
    ((m < 10 ∨ 90 < m) →
      ValidityPeriodRotationStrategy.init m =
        .error (.valueError
          ("min_lifetime_percentage should be [10, 90] but is: "
            ++ toString m))) ∧
    (10 ≤ m → m ≤ 90 → ValidityPeriodRotationStrategy.init m = .ok m) := by
  constructor
  · intro h
    simp [ValidityPeriodRotationStrategy.init, h]
  · intro h1 h2
    have h : ¬(m < 10 ∨ 90 < m) := by omega
    simp [ValidityPeriodRotationStrategy.init, h]

/-- Witness for C4 at the concrete inputs 9 (rejected) and 55
(accepted). -/
theorem c4_constructor_validates_min_validity_witness :
    (((9 : Int) < 10 ∨ 90 < (9 : Int)) ∧
      ValidityPeriodRotationStrategy.init 9 =
        .error (.valueError
          "min_lifetime_percentage should be [10, 90] but is: 9")) ∧
    ((10 : Int) ≤ 55 ∧ (55 : Int) ≤ 90 ∧
      ValidityPeriodRotationStrategy.init 55 = .ok 55) :=
  ⟨⟨Or.inl (by decide), (c4_constructor_validates_min_validity 9).1 (Or.inl (by decide))⟩,
    ⟨by decide, by decide,
      (c4_constructor_validates_min_validity 55).2 (by decide) (by decide)⟩⟩

/-- Shape of the strategy body when both timestamps are present. -/
theorem ValidityPeriodRotationStrategy.rotateBody_some (minV : Int)
    (c e now : ℚ) :
    ValidityPeriodRotationStrategy.rotateBody minV (some c) (some e) now =
      if e - now ≤ 0 then .ok true
      else if e - c = 0 then .error .zeroDivisionError
      else .ok (decide ((e - now) * 100 / (e - c) ≤ (minV : ℚ))) := rfl

/-- C3 (amended): the strategy decision returns true when either
timestamp is absent; otherwise with `lifetime = expiration - creation`
and `remaining = expiration - now` it returns true when
`remaining ≤ 0`, and otherwise — provided `lifetime ≠ 0` — returns
`remaining * 100 / lifetime ≤ min_validity_period` with inclusive
boundary; when `lifetime = 0` and `remaining > 0` it instead raises an
unhandled `ZeroDivisionError` (see the counterexample). -/
theorem c3_validity_strategy_decision (minV : Int)
    (c e : Option ℚ) (now : ℚ) :
    ((c = none ∨ e = none) →
      ValidityPeriodRotationStrategy.rotate minV c e now = .ok true) ∧
    (∀ cv ev, c = some cv → e = some ev → ev - now ≤ 0 →
      ValidityPeriodRotationStrategy.rotate minV c e now = .ok true) ∧
    (∀ cv ev, c = some cv → e = some ev → 0 < ev - now → ev - cv ≠ 0 →
      ValidityPeriodRotationStrategy.rotate minV c e now =
        .ok (decide ((ev - now) * 100 / (ev - cv) ≤ (minV : ℚ)))) := by
  refine ⟨?_, ?_, ?_⟩
  · rintro (rfl | rfl)
    · cases e <;> rfl
    · cases c <;> rfl
  · rintro cv ev rfl rfl h
    unfold ValidityPeriodRotationStrategy.rotate
    rw [ValidityPeriodRotationStrategy.rotateBody_some, if_pos h]
  · rintro cv ev rfl rfl h1 h2
    unfold ValidityPeriodRotationStrategy.rotate
    rw [ValidityPeriodRotationStrategy.rotateBody_some,
      if_neg (not_le.mpr h1), if_neg h2]

/-- Counterexample for C3 as frozen: with both timestamps present and
equal (`creation = expiration = 100`) and `now = 50`, the remaining
time is positive, yet the decision function does not return the claimed
boolean — it raises `ZeroDivisionError`. -/
theorem c3_validity_strategy_decision_counterexample :
    ValidityPeriodRotationStrategy.rotate 50 (some 100) (some 100) 50 =
        .error .zeroDivisionError ∧
    ¬(ValidityPeriodRotationStrategy.rotate 50 (some 100) (some 100) 50 =
        .ok (decide (((100 : ℚ) - 50) * 100 / (100 - 100) ≤ (50 : ℚ)))) := by
  constructor
  · decide
  · decide

/-- Witness for C3 at concrete inputs covering the three amended
branches. -/
theorem c3_validity_strategy_decision_witness :
    ValidityPeriodRotationStrategy.rotate 50 none (some 100) 0 = .ok true ∧
    ValidityPeriodRotationStrategy.rotate 50 (some 0) (some 100) 100 = .ok true ∧
    ValidityPeriodRotationStrategy.rotate 50 (some 0) (some 100) 80 =
      .ok (decide (((100 : ℚ) - 80) * 100 / ((100 : ℚ) - 0) ≤ (50 : ℚ))) :=
  ⟨(c3_validity_strategy_decision 50 none (some 100) 0).1 (Or.inl rfl),
    (c3_validity_strategy_decision 50 (some 0) (some 100) 100).2.1 0 100 rfl rfl
      (by decide),
    (c3_validity_strategy_decision 50 (some 0) (some 100) 80).2.2 0 100 rfl rfl
      (by decide) (by decide)⟩

/-- C10: for every pair of equal parseable timestamps lying strictly in
the future, the strategy's decision function divides by a zero lifetime
and the resulting `ZeroDivisionError` escapes (the handler catches only
`TypeError`). -/
theorem c10_zero_lifetime_raises_zero_division (minV : Int) (t now : ℚ)
    (h : now < t) :
    ValidityPeriodRotationStrategy.rotate minV (some t) (some t) now =
      .error .zeroDivisionError := by
  unfold ValidityPeriodRotationStrategy.rotate
  rw [ValidityPeriodRotationStrategy.rotateBody_some,
    if_neg (not_le.mpr (sub_pos.mpr h)), if_pos (sub_self t)]

/-- Witness for C10 at the concrete input `t = 200`, `now = 100`. -/
theorem c10_zero_lifetime_raises_zero_division_witness :
    ((100 : ℚ) < 200) ∧
    ValidityPeriodRotationStrategy.rotate 34 (some 200) (some 200) 100 =
      .error .zeroDivisionError :=
  ⟨by decide, c10_zero_lifetime_raises_zero_division 34 200 100 (by decide)⟩

/-- The fields of the `lookup_secret_id` response that
`rotate_secret_id` reads. A timestamp field is `none` when the key is
absent from the response, `some none` when present but unparseable by
`Utils.parse_timestamp`, and `some (some t)` when it parses to the
instant `t`. -/
structure LookupData where
  creation_time : Option (Option ℚ)
  expiration_time : Option (Option ℚ)
  secret_id_ttl : Option ℚ
  cidr_list : List String
  token_bound_cidrs : List String
  metadata : List (String × String)
deriving DecidableEq, Repr

/-- Embeds the static method `VaultClient._parse_validity_period_dates`:
missing or unparseable `creation_time` gives `(None, None)`; a parsed
`creation_time` together with a present `secret_id_ttl` gives the
TTL-derived expiration `creation_time + secret_id_ttl` without ever
reading `expiration_time`; otherwise `expiration_time` is parsed, with
failures downgraded to `None`. -/
def VaultClient.parse_validity_period_dates (data : LookupData) :
    Option ℚ × Option ℚ :=
  match data.creation_time with
  | none => (none, none)
  | some none => (none, none)
  | some (some creation_time) =>
    match data.secret_id_ttl with
    | some ttl => (some creation_time, some (creation_time + ttl))
    | none =>
      match data.expiration_time with
      | none => (some creation_time, none)
      | some none => (some creation_time, none)
      | some (some expiration_time) =>
        (some creation_time, some expiration_time)

/-- The request body and endpoint produced by `VaultClient.set_secret_id`
(the network call itself is external): `cidr_list` and
`token_bound_cidrs` are both set to the single `cidrs` argument, the
`metadata` field is attached only when non-empty, and a client-supplied
secret id switches the endpoint to the `custom-secret-id` variant. -/
structure SetSecretIdRequest where
  endpoint : String
  cidr_list : List String
  token_bound_cidrs : List String
  metadata : Option (List (String × String))
  secret_id : Option String
deriving DecidableEq, Repr

/-- Embeds the request construction of `VaultClient.set_secret_id`. -/
def VaultClient.set_secret_id_request (secret_id : Option String)
    (cidrs : List String) (metadata : List (String × String)) :
    SetSecretIdRequest :=
  { endpoint := if secret_id.isSome then "custom-secret-id" else "secret-id"
    cidr_list := cidrs
    token_bound_cidrs := cidrs
    metadata := if metadata = [] then none else some metadata
    secret_id := secret_id }

/-- The dictionary returned by `VaultClient.rotate_secret_id`. The
`vault_response` field holds the issuance request handed to
`set_secret_id` when rotation happened, `none` otherwise (the code only
adds the key inside the `if` branch). -/
structure RotateResult where
  creation_time : Option ℚ
  expiration_time : Option ℚ
  rotated_secret_id : Bool
  validity_period_percent : ℚ
  parsing_errors : Nat
  vault_response : Option SetSecretIdRequest
deriving DecidableEq, Repr

/-- Embeds `VaultClient.rotate_secret_id` from the login-and-lookup
result onward. `data` is the lookup response, `strat` the
`rotation_strategy.rotate` callback (which may itself raise), `now` the
wall clock. The float expression
`max(0., remaining * 100. / lifetime)` raises `ZeroDivisionError` when
`expiration_time == creation_time`. -/
def VaultClient.rotate_secret_id (data : LookupData)
    (strat : Option ℚ → Option ℚ → Except PyErr Bool) (now : ℚ) :
    Except PyErr RotateResult :=
  let cidrs := (data.cidr_list ++ data.token_bound_cidrs).dedup
  let metadata := data.metadata
  let p := VaultClient.parse_validity_period_dates data
  let creation_time := p.1
  let expiration_time := p.2
  let vppE : Except PyErr ℚ :=
    match creation_time, expiration_time with
    | some c, some e =>
      if e - c = 0 then .error .zeroDivisionError
      else .ok (max 0 ((e - now) * 100 / (e - c)))
    | _, _ => .ok (-1)
  match vppE with
  | .error err => .error err
  | .ok validity_period_percent =>
    match strat creation_time expiration_time with
    | .error err => .error err
    | .ok rotated =>
      .ok { creation_time := creation_time
            expiration_time := expiration_time
            rotated_secret_id := rotated
            validity_period_percent := validity_period_percent
            parsing_errors :=
              if creation_time.isNone ∨ expiration_time.isNone then 1 else 0
            vault_response :=
              if rotated then
                some (VaultClient.set_secret_id_request none cidrs metadata)
              else none }

/-- The orchestrator consults the strategy exactly at the parsed
timestamp pair: two strategies agreeing there give identical rotation
results. -/
theorem VaultClient.rotate_secret_id_congr (d : LookupData)
    (f g : Option ℚ → Option ℚ → Except PyErr Bool) (now : ℚ)
    (h : f (VaultClient.parse_validity_period_dates d).1
          (VaultClient.parse_validity_period_dates d).2 =
        g (VaultClient.parse_validity_period_dates d).1
          (VaultClient.parse_validity_period_dates d).2) :
    VaultClient.rotate_secret_id d f now =
      VaultClient.rotate_secret_id d g now := by
  simp only [VaultClient.rotate_secret_id]
  rw [h]

/-- C5: when the lookup data has a parseable `creation_time` and a
`secret_id_ttl` field, the derived expiration
`creation_time + secret_id_ttl` is returned — whatever
`expiration_time` field is also present — and the orchestrator hands
exactly that derived pair to the strategy. -/
theorem c5_ttl_derived_expiration_precedence (d : LookupData)
    (ct ttl : ℚ)
    (hc : d.creation_time = some (some ct))
    (ht : d.secret_id_ttl = some ttl) :
    VaultClient.parse_validity_period_dates d =
      (some ct, some (ct + ttl)) ∧
    ∀ (f g : Option ℚ → Option ℚ → Except PyErr Bool) (now : ℚ),
      f (some ct) (some (ct + ttl)) = g (some ct) (some (ct + ttl)) →
      VaultClient.rotate_secret_id d f now =
        VaultClient.rotate_secret_id d g now := by
  have hp : VaultClient.parse_validity_period_dates d =
      (some ct, some (ct + ttl)) := by
    unfold VaultClient.parse_validity_period_dates
    rw [hc, ht]
  refine ⟨hp, ?_⟩
  intro f g now hfg
  exact VaultClient.rotate_secret_id_congr d f g now (by rw [hp]; exact hfg)

/-- Concrete lookup data for the C5 witness: both a TTL and an
explicit, parseable expiration are present. -/
def c5_data : LookupData :=
  { creation_time := some (some 10)
    expiration_time := some (some 999)
    secret_id_ttl := some 20
    cidr_list := []
    token_bound_cidrs := []
    metadata := [] }

/-- Witness for C5: with `creation_time = 10`, `secret_id_ttl = 20` and
an explicit `expiration_time = 999` also present, the TTL-derived
expiration 30 wins. -/
theorem c5_ttl_derived_expiration_precedence_witness :
    (c5_data.creation_time = some (some 10) ∧
      c5_data.secret_id_ttl = some 20) ∧
    VaultClient.parse_validity_period_dates c5_data =
      (some 10, some (10 + 20)) ∧
    VaultClient.rotate_secret_id c5_data (fun a _ => .ok a.isSome) 50 =
      VaultClient.rotate_secret_id c5_data (fun _ _ => .ok true) 50 :=
  ⟨⟨rfl, rfl⟩,
    (c5_ttl_derived_expiration_precedence c5_data 10 20 rfl rfl).1,
    (c5_ttl_derived_expiration_precedence c5_data 10 20 rfl rfl).2
      (fun a _ => .ok a.isSome) (fun _ _ => .ok true) 50 rfl⟩

/-- C7 (amended): in every rotation attempt that completes, the
reported `validity_period_percent` equals
`max(0, remaining * 100 / lifetime)` with `parsing_errors = 0` when both
timestamps parsed, and equals the `-1` sentinel with
`parsing_errors = 1` when either timestamp is missing or unparseable;
an attempt in which both timestamps parse to the same instant does not
complete — it raises `ZeroDivisionError` (see the counterexample). -/
theorem c7_validity_percent_reporting (d : LookupData)
    (f : Option ℚ → Option ℚ → Except PyErr Bool) (now : ℚ)
    (r : RotateResult)
    (hrun : VaultClient.rotate_secret_id d f now = .ok r) :
    (∀ c e, VaultClient.parse_validity_period_dates d = (some c, some e) →
      r.validity_period_percent = max 0 ((e - now) * 100 / (e - c)) ∧
      r.parsing_errors = 0) ∧
    (((VaultClient.parse_validity_period_dates d).1 = none ∨
        (VaultClient.parse_validity_period_dates d).2 = none) →
      r.validity_period_percent = -1 ∧ r.parsing_errors = 1) := by
  constructor
  · rintro c e hpe
    simp only [VaultClient.rotate_secret_id, hpe] at hrun
    by_cases hec : e - c = 0
    · rw [if_pos hec] at hrun
      try dsimp only [] at hrun
      exact absurd hrun (by simp)
    · rw [if_neg hec] at hrun
      try dsimp only [] at hrun
      split at hrun
      · simp at hrun
      · rw [Except.ok.injEq] at hrun
        rw [← hrun]
        simp
  · rintro (h1 | h2)
    · simp only [VaultClient.rotate_secret_id, h1] at hrun
      try dsimp only [] at hrun
      split at hrun
      · simp at hrun
      · rw [Except.ok.injEq] at hrun
        rw [← hrun]
        simp
    · rcases hp1 : (VaultClient.parse_validity_period_dates d).1 with _ | c
      · simp only [VaultClient.rotate_secret_id, hp1] at hrun
        try dsimp only [] at hrun
        split at hrun
        · simp at hrun
        · rw [Except.ok.injEq] at hrun
          rw [← hrun]
          simp
      · simp only [VaultClient.rotate_secret_id, hp1, h2] at hrun
        try dsimp only [] at hrun
        split at hrun
        · simp at hrun
        · rw [Except.ok.injEq] at hrun
          rw [← hrun]
          simp

/-- Deduplication does not change the set of elements of a list. -/
theorem list_dedup_toFinset (l : List String) :
    l.dedup.toFinset = l.toFinset := by
  ext a
  simp [List.mem_dedup]

/-- A completed rotation attempt reports exactly the strategy's
decision and attaches the issuance request iff that decision was to
rotate. -/
theorem VaultClient.rotate_secret_id_ok_shape (d : LookupData)
    (f : Option ℚ → Option ℚ → Except PyErr Bool) (now : ℚ)
    (r : RotateResult)
    (hrun : VaultClient.rotate_secret_id d f now = .ok r) :
    f (VaultClient.parse_validity_period_dates d).1
      (VaultClient.parse_validity_period_dates d).2 =
        .ok r.rotated_secret_id ∧
    r.vault_response =
      (if r.rotated_secret_id then
        some (VaultClient.set_secret_id_request none
          ((d.cidr_list ++ d.token_bound_cidrs).dedup) d.metadata)
      else none) := by
  simp only [VaultClient.rotate_secret_id] at hrun
  split at hrun
  · exact absurd hrun (by simp)
  · split at hrun
    · exact absurd hrun (by simp)
    · rename_i rotated hf
      rw [Except.ok.injEq] at hrun
      rw [← hrun]
      exact ⟨hf, rfl⟩

/-- Concrete lookup data on which the reporting computation of C7
divides by zero: both timestamps parse and are equal. -/
def c7_cex_data : LookupData :=
  { creation_time := some (some 100)
    expiration_time := some (some 100)
    secret_id_ttl := none
    cidr_list := []
    token_bound_cidrs := []
    metadata := [] }

/-- Counterexample for C7 as frozen: a rotation attempt in which both
timestamps parse (to the same instant) reports nothing at all — the
attempt raises `ZeroDivisionError` while computing
`validity_period_percent`, so the reported value cannot equal
`max(0, remaining * 100 / lifetime)`. -/
theorem c7_validity_percent_reporting_counterexample :
    VaultClient.rotate_secret_id c7_cex_data (fun _ _ => .ok false) 0 =
      .error .zeroDivisionError := by decide

/-- Concrete lookup data for the C7 witness. -/
def c7_data : LookupData :=
  { creation_time := some (some 0)
    expiration_time := some (some 200)
    secret_id_ttl := none
    cidr_list := []
    token_bound_cidrs := []
    metadata := [] }

/-- Strategy stub used by the C7 witness: never rotate. -/
def c7_strat : Option ℚ → Option ℚ → Except PyErr Bool :=
  fun _ _ => .ok false

/-- The rotation result the C7 witness run produces. -/
def c7_result : RotateResult :=
  { creation_time := some 0
    expiration_time := some 200
    rotated_secret_id := false
    validity_period_percent := 50
    parsing_errors := 0
    vault_response := none }

/-- Witness for C7 at a concrete completing run: creation 0, expiration
200, now 100 — reported percent `max(0, 100·100/200) = 50`, no parsing
errors. -/
theorem c7_validity_percent_reporting_witness :
    (VaultClient.rotate_secret_id c7_data c7_strat 100 = .ok c7_result ∧
      VaultClient.parse_validity_period_dates c7_data =
        (some 0, some 200)) ∧
    (c7_result.validity_period_percent =
        max 0 (((200 : ℚ) - 100) * 100 / (200 - 0)) ∧
      c7_result.parsing_errors = 0) :=
  ⟨⟨by decide, by decide⟩,
    (c7_validity_percent_reporting c7_data c7_strat 100 c7_result
      (by decide)).1 0 200 (by decide)⟩

/-- C8: when rotation is due, the orchestrator issues the replacement
with `secret_id = None` against the non-custom `secret-id` endpoint,
passes the deduplicated union of the observed `cidr_list` and
`token_bound_cidrs` as both `cidr_list` and `token_bound_cidrs` of the
new credential, and passes the observed metadata through unchanged
(the request omits the field exactly when the metadata was empty). -/
theorem c8_issuance_preserves_cidrs_and_metadata (d : LookupData)
    (f : Option ℚ → Option ℚ → Except PyErr Bool) (now : ℚ)
    (r : RotateResult)
    (hrun : VaultClient.rotate_secret_id d f now = .ok r)
    (hrot : r.rotated_secret_id = true) :
    ∃ req, r.vault_response = some req ∧
      req.secret_id = none ∧
      req.endpoint = "secret-id" ∧
      req.token_bound_cidrs = req.cidr_list ∧
      req.cidr_list.Nodup ∧
      req.cidr_list.toFinset =
        d.cidr_list.toFinset ∪ d.token_bound_cidrs.toFinset ∧
      req.metadata =
        (if d.metadata = [] then none else some d.metadata) := by
  obtain ⟨-, hresp⟩ := VaultClient.rotate_secret_id_ok_shape d f now r hrun
  rw [hrot, if_pos rfl] at hresp
  refine ⟨VaultClient.set_secret_id_request none
      ((d.cidr_list ++ d.token_bound_cidrs).dedup) d.metadata,
    hresp, rfl, rfl, rfl, List.nodup_dedup _, ?_, rfl⟩
  rw [show (VaultClient.set_secret_id_request none
      ((d.cidr_list ++ d.token_bound_cidrs).dedup) d.metadata).cidr_list =
      (d.cidr_list ++ d.token_bound_cidrs).dedup from rfl,
    list_dedup_toFinset, List.toFinset_append]

/-- Concrete lookup data for the C8 witness: distinct CIDRs in the two
lists and non-empty metadata. -/
def c8_data : LookupData :=
  { creation_time := some (some 0)
    expiration_time := some (some 100)
    secret_id_ttl := none
    cidr_list := ["10.0.0.0/8"]
    token_bound_cidrs := ["192.168.0.0/16"]
    metadata := [("env", "prod")] }

/-- Strategy stub used by the C8 witness: always rotate. -/
def c8_strat : Option ℚ → Option ℚ → Except PyErr Bool :=
  fun _ _ => .ok true

/-- The rotation result the C8 witness run produces. -/
def c8_result : RotateResult :=
  { creation_time := some 0
    expiration_time := some 100
    rotated_secret_id := true
    validity_period_percent := 50
    parsing_errors := 0
    vault_response := some
      { endpoint := "secret-id"
        cidr_list := ["10.0.0.0/8", "192.168.0.0/16"]
        token_bound_cidrs := ["10.0.0.0/8", "192.168.0.0/16"]
        metadata := some [("env", "prod")]
        secret_id := none } }

/-- Witness for C8 at a concrete rotating run. -/
theorem c8_issuance_preserves_cidrs_and_metadata_witness :
    (VaultClient.rotate_secret_id c8_data c8_strat 50 = .ok c8_result ∧
      c8_result.rotated_secret_id = true) ∧
    (∃ req, c8_result.vault_response = some req ∧
      req.secret_id = none ∧
      req.endpoint = "secret-id" ∧
      req.token_bound_cidrs = req.cidr_list ∧
      req.cidr_list.Nodup ∧
      req.cidr_list.toFinset =
        c8_data.cidr_list.toFinset ∪ c8_data.token_bound_cidrs.toFinset ∧
      req.metadata =
        (if c8_data.metadata = [] then none else some c8_data.metadata)) :=
  ⟨⟨by decide, rfl⟩,
    c8_issuance_preserves_cidrs_and_metadata c8_data c8_strat 50 c8_result
      (by decide) rfl⟩

/-- The two fields of a `lookup_secret_id_accessor` response that
`CommandRotateSecretId.run` reads. In the response `creation_time` is a
raw ISO-8601 string and `sorted` compares those strings
lexicographically, which for the store's fixed timestamp format is
chronological order; the key is modelled by an integer carrying that
same linear order. -/
structure AccessorData where
  creation_time : Int
  secret_id_accessor : String
deriving DecidableEq, Repr

/-- One insertion step of the stable descending sort
`sorted(accessors_data, key=lambda a: a["creation_time"], reverse=True)`:
the new element is placed before the first strictly-smaller key, hence
after every earlier element with an equal key (Python's sort is
stable). -/
def insertDesc (x : AccessorData) : List AccessorData → List AccessorData
  | [] => [x]
  | y :: l =>
    if y.creation_time < x.creation_time then x :: y :: l
    else y :: insertDesc x l

/-- Embeds `sorted(accessors_data, key=..., reverse=True)` as a stable
insertion sort processing the input left to right. -/
def sortByCreationDesc (l : List AccessorData) : List AccessorData :=
  l.foldl (fun acc x => insertDesc x acc) []

set_option linter.unusedVariables false in
/-- Embeds `VaultClient.destroy_secret_id`: a non-ok response raises
`VaultException`; the function never returns `False`. The `secret_id`
argument only feeds the posted form, which the embedding does not
track. -/
def VaultClient.destroy_secret_id (mount role_name secret_id : String)
    (is_accessor : Bool) (resp : HttpResp) : Except VaultException Bool :=
  let name := if is_accessor then "secret-id-accessor" else "secret-id"
  let url := "v1/auth/" ++ mount ++ "/role/" ++ role_name ++ "/" ++ name
    ++ "/destroy"
  if resp.respOk then .ok true
  else .error ⟨resp.status, url, resp.text⟩

/-- Embeds `VaultClient.destroy_secret_id_accessor`. -/
def VaultClient.destroy_secret_id_accessor
    (mount role_name secret_id_accessor : String) (resp : HttpResp) :
    Except VaultException Bool :=
  VaultClient.destroy_secret_id mount role_name secret_id_accessor true resp

/-- The `for sia in secret_id_accessors:` loop of
`VaultClient.destroy_secret_id_accessors`, with the running `destroyed`
and `error` tallies. `respOf` gives the HTTP response each destroy call
receives. -/
def destroyAccessorsLoop (mount role_name : String)
    (respOf : String → HttpResp) :
    List String → Nat → Nat → Except VaultException (Nat × Nat)
  | [], destroyed, error => .ok (destroyed, error)
  | sia :: rest, destroyed, error =>
    match VaultClient.destroy_secret_id_accessor mount role_name sia
        (respOf sia) with
    | .error e => .error e
    | .ok b =>
      if b then
        destroyAccessorsLoop mount role_name respOf rest (destroyed + 1) error
      else
        destroyAccessorsLoop mount role_name respOf rest destroyed (error + 1)

/-- Embeds `VaultClient.destroy_secret_id_accessors`. Python's
`if not secret_id_accessors:` treats `None` and the empty list alike:
both make the method fetch the full accessor listing (`listing` is what
`get_secret_id_accessors` would return) and destroy everything in it. -/
def VaultClient.destroy_secret_id_accessors (mount role_name : String)
    (listing : List String) (respOf : String → HttpResp)
    (secret_id_accessors : List String) :
    Except VaultException (Nat × Nat) :=
  let sias :=
    if secret_id_accessors = [] then listing else secret_id_accessors
  destroyAccessorsLoop mount role_name respOf sias 0 0

/-- A client call made by `CommandRotateSecretId.run` after the
rotation decision. -/
inductive PostCall where
  | getSecretIdAccessors
  | lookupSecretIdAccessor (accessor : String)
  | destroySecretIdAccessor (accessor : String)
deriving DecidableEq, Repr

/-- The store's responses to the post-decision calls of
`CommandRotateSecretId.run`: the (successful) accessor listing, the
per-accessor lookup data, and the per-accessor destroy response. -/
structure VaultEnv where
  accessors : List String
  lookup_accessor : String → AccessorData
  destroy_resp : String → HttpResp

/-- Outcome of `CommandRotateSecretId.run`: the rotation dictionary
(with the `destroyed`/`errors` keys that are only added on the rotating
path), the computed `delete_secret_id_accessors` list, and the trace of
post-decision client calls. -/
structure RunResult where
  ret : RotateResult
  delete_secret_id_accessors : List String
  destroyed : Option Nat
  errors : Option Nat
  post_calls : List PostCall
deriving DecidableEq, Repr

/-- Embeds `CommandRotateSecretId.run` from the `rotate_secret_id` call
onward: on `rotated_secret_id == False` it returns (exits) without any
further client call; otherwise it lists the accessors, looks each up,
sorts the lookup data by `creation_time` descending, selects everything
after the first element for destruction and runs the destruction
loop (whose empty-list fallback re-fetches and destroys the full
listing). -/
def CommandRotateSecretId.run (mount role_name : String)
    (d : LookupData) (strat : Option ℚ → Option ℚ → Except PyErr Bool)
    (now : ℚ) (env : VaultEnv) : Except PyErr RunResult :=
  match VaultClient.rotate_secret_id d strat now with
  | .error e => .error e
  | .ok ret =>
    if ret.rotated_secret_id = false then
      .ok { ret := ret
            delete_secret_id_accessors := []
            destroyed := none
            errors := none
            post_calls := [] }
    else
      let accessors_data := env.accessors.map env.lookup_accessor
      let sorted_accessors := sortByCreationDesc accessors_data
      let deleteList :=
        (sorted_accessors.drop 1).map AccessorData.secret_id_accessor
      let sias := if deleteList = [] then env.accessors else deleteList
      match VaultClient.destroy_secret_id_accessors mount role_name
          env.accessors env.destroy_resp deleteList with
      | .error e => .error (.vault e)
      | .ok (dc, ec) =>
        .ok { ret := ret
              delete_secret_id_accessors := deleteList
              destroyed := some dc
              errors := some ec
              post_calls :=
                [PostCall.getSecretIdAccessors]
                  ++ env.accessors.map PostCall.lookupSecretIdAccessor
                  ++ (if deleteList = [] then
                        [PostCall.getSecretIdAccessors] else [])
                  ++ sias.map PostCall.destroySecretIdAccessor }


/-- Inserting into the sort accumulator is a permutation of consing. -/
theorem insertDesc_perm (x : AccessorData) (l : List AccessorData) :
    List.Perm (insertDesc x l) (x :: l) := by
  induction l with
  | nil => exact List.Perm.refl _
  | cons y ys ih =>
    unfold insertDesc
    split
    · exact List.Perm.refl _
    · exact (ih.cons y).trans (List.Perm.swap x y ys)

/-- The sorting fold permutes the accumulator followed by the input. -/
theorem sortFold_perm (l : List AccessorData) :
    ∀ acc, List.Perm (l.foldl (fun acc x => insertDesc x acc) acc)
      (acc ++ l) := by
  induction l with
  | nil => intro acc; simp
  | cons x xs ih =>
    intro acc
    refine ((ih (insertDesc x acc)).trans ?_)
    refine ((insertDesc_perm x acc).append_right xs).trans ?_
    exact List.perm_middle.symm

/-- The retirement sort permutes its input. -/
theorem sortByCreationDesc_perm (l : List AccessorData) :
    List.Perm (sortByCreationDesc l) l := by
  simpa using sortFold_perm l []

/-- Insertion preserves the descending order of the accumulator. -/
theorem insertDesc_sorted (x : AccessorData) {l : List AccessorData}
    (h : l.Pairwise (fun a b => b.creation_time ≤ a.creation_time)) :
    (insertDesc x l).Pairwise
      (fun a b => b.creation_time ≤ a.creation_time) := by
  induction l with
  | nil =>
    exact List.pairwise_singleton _ x
  | cons y ys ih =>
    rw [List.pairwise_cons] at h
    obtain ⟨hy, hys⟩ := h
    unfold insertDesc
    split
    · rename_i hlt
      refine List.pairwise_cons.mpr ⟨?_, List.pairwise_cons.mpr ⟨hy, hys⟩⟩
      intro z hz
      rcases List.mem_cons.mp hz with rfl | hz
      · exact le_of_lt hlt
      · exact le_trans (hy z hz) (le_of_lt hlt)
    · rename_i hnlt
      refine List.pairwise_cons.mpr ⟨?_, ih hys⟩
      intro z hz
      rcases List.mem_cons.mp ((insertDesc_perm x ys).mem_iff.mp hz) with
        rfl | hz
      · exact not_lt.mp hnlt
      · exact hy z hz

/-- The sorting fold preserves descending order of the accumulator. -/
theorem sortFold_sorted (l : List AccessorData) :
    ∀ acc : List AccessorData,
      acc.Pairwise (fun a b => b.creation_time ≤ a.creation_time) →
      (l.foldl (fun acc x => insertDesc x acc) acc).Pairwise
        (fun a b => b.creation_time ≤ a.creation_time) := by
  induction l with
  | nil => intro acc h; exact h
  | cons x xs ih =>
    intro acc h
    exact ih (insertDesc x acc) (insertDesc_sorted x h)

/-- The retirement sort produces a list in descending key order. -/
theorem sortByCreationDesc_sorted (l : List AccessorData) :
    (sortByCreationDesc l).Pairwise
      (fun a b => b.creation_time ≤ a.creation_time) :=
  sortFold_sorted l [] List.Pairwise.nil

/-- When one element has a strictly larger key than every other
element, it heads the sorted list — whatever the input order was. -/
theorem sortByCreationDesc_head_unique_max (l : List AccessorData)
    (m : AccessorData) (hm : m ∈ l)
    (hmax : ∀ a ∈ l, a ≠ m → a.creation_time < m.creation_time) :
    (sortByCreationDesc l).head? = some m := by
  have hperm := sortByCreationDesc_perm l
  have hsort := sortByCreationDesc_sorted l
  cases hs : sortByCreationDesc l with
  | nil =>
    rw [hs] at hperm
    rw [List.Perm.mem_iff hperm.symm] at hm
    exact absurd hm (List.not_mem_nil m)
  | cons h t =>
    rw [hs] at hperm hsort
    by_cases hhm : h = m
    · rw [hhm]
      rfl
    · exfalso
      have hhl : h ∈ l := hperm.mem_iff.mp (List.mem_cons_self h t)
      have hmt : m ∈ t := by
        rcases List.mem_cons.mp (hperm.mem_iff.mpr hm) with rfl | hmt
        · exact absurd rfl hhm
        · exact hmt
      have hle : m.creation_time ≤ h.creation_time :=
        (List.pairwise_cons.mp hsort).1 m hmt
      exact absurd (lt_of_lt_of_le (hmax h hhl hhm) hle) (lt_irrefl _)

/-- Dropping the kept head, the sorted list is a permutation of the
input with the kept element removed. -/
theorem sortByCreationDesc_tail_perm_erase (l : List AccessorData)
    (m : AccessorData) (hm : m ∈ l)
    (hhead : (sortByCreationDesc l).head? = some m) :
    List.Perm ((sortByCreationDesc l).drop 1) (l.erase m) := by
  have hperm := sortByCreationDesc_perm l
  cases hs : sortByCreationDesc l with
  | nil =>
    rw [hs] at hhead
    exact absurd hhead (by simp)
  | cons h t =>
    rw [hs] at hperm hhead
    have hh : h = m := by
      simpa using hhead
    subst hh
    have h1 : List.Perm (h :: t) (h :: l.erase h) :=
      hperm.trans (List.perm_cons_erase hm)
    simpa using h1.cons_inv

/-- C6: when the strategy decides not to rotate, the orchestration
short-circuits — the result carries `rotated_secret_id = false`, no
issuance request is built, and no accessor enumeration, lookup or
destruction call happens after the decision. -/
theorem c6_no_rotation_short_circuits (mount role_name : String)
    (d : LookupData) (strat : Option ℚ → Option ℚ → Except PyErr Bool)
    (now : ℚ) (env : VaultEnv) (r : RunResult)
    (hrun : CommandRotateSecretId.run mount role_name d strat now env =
      .ok r)
    (hdec : strat (VaultClient.parse_validity_period_dates d).1
        (VaultClient.parse_validity_period_dates d).2 = .ok false) :
    r.ret.rotated_secret_id = false ∧
    r.ret.vault_response = none ∧
    r.post_calls = [] ∧
    r.delete_secret_id_accessors = [] ∧
    r.destroyed = none ∧ r.errors = none := by
  unfold CommandRotateSecretId.run at hrun
  cases hr : VaultClient.rotate_secret_id d strat now with
  | error e =>
    rw [hr] at hrun
    exact absurd hrun (by simp)
  | ok ret =>
    rw [hr] at hrun
    try dsimp only [] at hrun
    have hshape := VaultClient.rotate_secret_id_ok_shape d strat now ret hr
    have hrot : ret.rotated_secret_id = false := by
      have h1 := hshape.1
      rw [hdec] at h1
      exact (Except.ok.injEq _ _).mp h1.symm
    rw [if_pos hrot] at hrun
    rw [Except.ok.injEq] at hrun
    rw [← hrun]
    refine ⟨hrot, ?_, rfl, rfl, rfl, rfl⟩
    have h2 := hshape.2
    rw [hrot] at h2
    simpa using h2

/-- Concrete lookup data for the C6 witness. -/
def c6_data : LookupData :=
  { creation_time := some (some 0)
    expiration_time := some (some 400)
    secret_id_ttl := none
    cidr_list := []
    token_bound_cidrs := []
    metadata := [] }

/-- Strategy stub for the C6 witness: decide not to rotate. -/
def c6_strat : Option ℚ → Option ℚ → Except PyErr Bool :=
  fun _ _ => .ok false

/-- A store environment for the C6 witness; its contents must never be
consulted on the short-circuit path. -/
def c6_env : VaultEnv :=
  { accessors := ["w1"]
    lookup_accessor := fun _ => ⟨1, "w1"⟩
    destroy_resp := fun _ => ⟨204, [], ""⟩ }

/-- The run result of the C6 witness. -/
def c6_result : RunResult :=
  { ret :=
      { creation_time := some 0
        expiration_time := some 400
        rotated_secret_id := false
        validity_period_percent := 75
        parsing_errors := 0
        vault_response := none }
    delete_secret_id_accessors := []
    destroyed := none
    errors := none
    post_calls := [] }

/-- Witness for C6 at a concrete non-rotating run. -/
theorem c6_no_rotation_short_circuits_witness :
    (CommandRotateSecretId.run "approle" "role-w6" c6_data c6_strat 100
        c6_env = .ok c6_result ∧
      c6_strat (VaultClient.parse_validity_period_dates c6_data).1
        (VaultClient.parse_validity_period_dates c6_data).2 = .ok false) ∧
    (c6_result.ret.rotated_secret_id = false ∧
      c6_result.ret.vault_response = none ∧
      c6_result.post_calls = [] ∧
      c6_result.delete_secret_id_accessors = [] ∧
      c6_result.destroyed = none ∧ c6_result.errors = none) :=
  ⟨⟨by decide, by decide⟩,
    c6_no_rotation_short_circuits "approle" "role-w6" c6_data c6_strat 100
      c6_env c6_result (by decide) (by decide)⟩

/-- C1 (amended): in a successful rotating run whose accessor listing
yields at least two entries, the orchestrator keeps exactly the
accessor whose looked-up `creation_time` is strictly newest — the head
of the descending sort — and selects every other accessor for
destruction, independent of listing order; the destroy calls are
exactly the selected ones. (With fewer than two listed accessors the
empty selection triggers the destroy-all fallback, see the
counterexample.) -/
theorem c1_retirement_keeps_newest (mount role_name : String)
    (d : LookupData) (strat : Option ℚ → Option ℚ → Except PyErr Bool)
    (now : ℚ) (env : VaultEnv) (r : RunResult) (m : AccessorData)
    (hrun : CommandRotateSecretId.run mount role_name d strat now env =
      .ok r)
    (hrot : r.ret.rotated_secret_id = true)
    (hm : m ∈ env.accessors.map env.lookup_accessor)
    (hmax : ∀ a ∈ env.accessors.map env.lookup_accessor, a ≠ m →
      a.creation_time < m.creation_time)
    (hlen : 2 ≤ (env.accessors.map env.lookup_accessor).length) :
    (sortByCreationDesc (env.accessors.map env.lookup_accessor)).head? =
      some m ∧
    List.Perm r.delete_secret_id_accessors
      (((env.accessors.map env.lookup_accessor).erase m).map
        AccessorData.secret_id_accessor) ∧
    r.post_calls = [PostCall.getSecretIdAccessors]
      ++ env.accessors.map PostCall.lookupSecretIdAccessor
      ++ r.delete_secret_id_accessors.map PostCall.destroySecretIdAccessor ∧
    ∀ env' : VaultEnv,
      List.Perm (env'.accessors.map env'.lookup_accessor)
        (env.accessors.map env.lookup_accessor) →
      (sortByCreationDesc
        (env'.accessors.map env'.lookup_accessor)).head? = some m := by
  have hhead := sortByCreationDesc_head_unique_max
    (env.accessors.map env.lookup_accessor) m hm hmax
  have htail := sortByCreationDesc_tail_perm_erase
    (env.accessors.map env.lookup_accessor) m hm hhead
  have hlensort :
      (sortByCreationDesc (env.accessors.map env.lookup_accessor)).length =
        (env.accessors.map env.lookup_accessor).length :=
    (sortByCreationDesc_perm _).length_eq
  have hne :
      ((sortByCreationDesc (env.accessors.map env.lookup_accessor)).drop
          1).map AccessorData.secret_id_accessor ≠ [] := by
    have : 1 ≤ ((sortByCreationDesc
        (env.accessors.map env.lookup_accessor)).drop 1).length := by
      rw [List.length_drop, hlensort]
      omega
    intro hcontra
    rw [List.map_eq_nil_iff] at hcontra
    rw [hcontra] at this
    simp at this
  unfold CommandRotateSecretId.run at hrun
  cases hr : VaultClient.rotate_secret_id d strat now with
  | error e =>
    rw [hr] at hrun
    exact absurd hrun (by simp)
  | ok ret =>
    rw [hr] at hrun
    try dsimp only [] at hrun
    by_cases hb : ret.rotated_secret_id = false
    · rw [if_pos hb] at hrun
      rw [Except.ok.injEq] at hrun
      rw [← hrun] at hrot
      exact absurd hrot (by simp [hb])
    · rw [if_neg hb] at hrun
      rw [if_neg hne] at hrun
      split at hrun
      · exact absurd hrun (by simp)
      · rw [Except.ok.injEq] at hrun
        rw [← hrun]
        refine ⟨hhead, htail.map AccessorData.secret_id_accessor, ?_, ?_⟩
        · try dsimp only []
          rw [if_neg hne]
          simp
        · intro env' hperm'
          refine sortByCreationDesc_head_unique_max _ m
            (hperm'.mem_iff.mpr hm) ?_
          intro a ha hne'
          exact hmax a (hperm'.mem_iff.mp ha) hne'

/-- Lookup data for the C1 counterexample and witness runs. -/
def c1_data : LookupData :=
  { creation_time := some (some 0)
    expiration_time := some (some 100)
    secret_id_ttl := none
    cidr_list := []
    token_bound_cidrs := []
    metadata := [] }

/-- Strategy stub for the C1 runs: always rotate. -/
def c1_strat : Option ℚ → Option ℚ → Except PyErr Bool :=
  fun _ _ => .ok true

/-- Environment for the C1 counterexample: the listing returns a single
accessor — which is therefore the newest. -/
def c1_cex_env : VaultEnv :=
  { accessors := ["acc-new"]
    lookup_accessor := fun _ => ⟨1, "acc-new"⟩
    destroy_resp := fun _ => ⟨204, [], ""⟩ }

/-- The run result of the C1 counterexample: the sole, newest accessor
gets destroyed through the destroy-all fallback. -/
def c1_cex_result : RunResult :=
  { ret :=
      { creation_time := some 0
        expiration_time := some 100
        rotated_secret_id := true
        validity_period_percent := 50
        parsing_errors := 0
        vault_response := some
          { endpoint := "secret-id"
            cidr_list := []
            token_bound_cidrs := []
            metadata := none
            secret_id := none } }
    delete_secret_id_accessors := []
    destroyed := some 1
    errors := some 0
    post_calls :=
      [PostCall.getSecretIdAccessors,
        PostCall.lookupSecretIdAccessor "acc-new",
        PostCall.getSecretIdAccessors,
        PostCall.destroySecretIdAccessor "acc-new"] }

/-- Counterexample for C1 as frozen: in a successful rotating run whose
listing returns exactly one accessor ("acc-new", which is the newest),
the computed deletion list is empty, so
`destroy_secret_id_accessors`'s falsy-list fallback re-fetches the full
listing and destroys the newest accessor itself — zero accessors are
kept, not one. -/
theorem c1_retirement_keeps_newest_counterexample :
    CommandRotateSecretId.run "approle" "role-c1" c1_data c1_strat 50
        c1_cex_env = .ok c1_cex_result ∧
    c1_cex_result.ret.rotated_secret_id = true ∧
    (sortByCreationDesc
        (c1_cex_env.accessors.map c1_cex_env.lookup_accessor)).head? =
      some ⟨1, "acc-new"⟩ ∧
    PostCall.destroySecretIdAccessor "acc-new" ∈ c1_cex_result.post_calls ∧
    c1_cex_result.destroyed = some 1 := by
  refine ⟨by decide, by decide, by decide, by decide, by decide⟩

/-- Environment for the C1 witness: three accessors listed in shuffled
order with strictly increasing creation times `t1 < t2 < t3`. -/
def c1_env : VaultEnv :=
  { accessors := ["a2", "a3", "a1"]
    lookup_accessor := fun s =>
      if s = "a1" then ⟨1, "a1"⟩
      else if s = "a2" then ⟨2, "a2"⟩
      else ⟨3, "a3"⟩
    destroy_resp := fun _ => ⟨204, [], ""⟩ }

/-- The newest accessor of the C1 witness environment. -/
def c1_newest : AccessorData := ⟨3, "a3"⟩

/-- The run result of the C1 witness. -/
def c1_result : RunResult :=
  { ret :=
      { creation_time := some 0
        expiration_time := some 100
        rotated_secret_id := true
        validity_period_percent := 50
        parsing_errors := 0
        vault_response := some
          { endpoint := "secret-id"
            cidr_list := []
            token_bound_cidrs := []
            metadata := none
            secret_id := none } }
    delete_secret_id_accessors := ["a2", "a1"]
    destroyed := some 2
    errors := some 0
    post_calls :=
      [PostCall.getSecretIdAccessors,
        PostCall.lookupSecretIdAccessor "a2",
        PostCall.lookupSecretIdAccessor "a3",
        PostCall.lookupSecretIdAccessor "a1",
        PostCall.destroySecretIdAccessor "a2",
        PostCall.destroySecretIdAccessor "a1"] }

/-- Witness for C1: three accessors listed out of order; the strictly
newest ("a3") is kept and exactly "a2", "a1" are selected and
destroyed. -/
theorem c1_retirement_keeps_newest_witness :
    (CommandRotateSecretId.run "approle" "role-w1" c1_data c1_strat 50
        c1_env = .ok c1_result ∧
      c1_result.ret.rotated_secret_id = true ∧
      c1_newest ∈ c1_env.accessors.map c1_env.lookup_accessor ∧
      (∀ a ∈ c1_env.accessors.map c1_env.lookup_accessor, a ≠ c1_newest →
        a.creation_time < c1_newest.creation_time) ∧
      2 ≤ (c1_env.accessors.map c1_env.lookup_accessor).length) ∧
    ((sortByCreationDesc
        (c1_env.accessors.map c1_env.lookup_accessor)).head? =
      some c1_newest ∧
    List.Perm c1_result.delete_secret_id_accessors
      (((c1_env.accessors.map c1_env.lookup_accessor).erase
        c1_newest).map AccessorData.secret_id_accessor) ∧
    c1_result.post_calls = [PostCall.getSecretIdAccessors]
      ++ c1_env.accessors.map PostCall.lookupSecretIdAccessor
      ++ c1_result.delete_secret_id_accessors.map
          PostCall.destroySecretIdAccessor ∧
    ∀ env' : VaultEnv,
      List.Perm (env'.accessors.map env'.lookup_accessor)
        (c1_env.accessors.map c1_env.lookup_accessor) →
      (sortByCreationDesc
        (env'.accessors.map env'.lookup_accessor)).head? =
        some c1_newest) :=
  ⟨⟨by decide, by decide, by decide, by decide, by decide⟩,
    c1_retirement_keeps_newest "approle" "role-w1" c1_data c1_strat 50
      c1_env c1_result c1_newest (by decide) (by decide) (by decide)
      (by decide) (by decide)⟩

/-- Destroy responses for the C2 failing input: the first accessor's
destroy call returns HTTP 403, the second succeeds. -/
def c2_resp : String → HttpResp :=
  fun sia =>
    if sia = "sia-1" then ⟨403, [], "permission denied"⟩
    else ⟨204, [], ""⟩

/-- C2 evaluated at the failing input: a failed destroy call makes
`destroy_secret_id` raise `VaultException`, which propagates out of the
`destroy_secret_id_accessors` loop — aborting it before the second
accessor and returning no `(destroyed, errors)` tally at all; the
`error` branch of the loop is unreachable (on an all-success input the
tally is always `(length, 0)`). -/
theorem c2_destroy_failure_aborts_loop :
    VaultClient.destroy_secret_id_accessors "approle" "role-c2" []
        c2_resp ["sia-1", "sia-2"] =
      .error ⟨403,
        "v1/auth/approle/role/role-c2/secret-id-accessor/destroy",
        "permission denied"⟩ ∧
    VaultClient.destroy_secret_id_accessors "approle" "role-c2" []
        (fun _ => ⟨204, [], ""⟩) ["sia-1", "sia-2"] = .ok (2, 0) := by
  refine ⟨by decide, by decide⟩

/-- Embeds `VaultClient.get_secret_id_accessors`: an ok response yields
the decoded key list, a 404 yields the empty list, anything else raises
`VaultException` with status, URL and body. -/
def VaultClient.get_secret_id_accessors (mount role_name : String)
    (resp : HttpResp) : Except VaultException (List String) :=
  let url := "v1/auth/" ++ mount ++ "/role/" ++ role_name
    ++ "/secret-id?list=true"
  if resp.respOk then .ok resp.keys
  else if resp.status = 404 then .ok []
  else .error ⟨resp.status, url, resp.text⟩

/-- Embeds `VaultClient.list_role_names`: same response convention as
`get_secret_id_accessors`. -/
def VaultClient.list_role_names (mount : String) (resp : HttpResp) :
    Except VaultException (List String) :=
  let url := "v1/auth/" ++ mount ++ "/role?list=true"
  if resp.respOk then .ok resp.keys
  else if resp.status = 404 then .ok []
  else .error ⟨resp.status, url, resp.text⟩

/-- C9 (amended): for both list operations a 404 response yields the
empty list as a successful result; every other status in `[400, 600)`
raises `VaultException` carrying the status code, URL and response
body; statuses the HTTP layer counts as ok (outside `[400, 600)`, which
includes 3xx) return the decoded key list instead of raising. -/
theorem c9_list_404_convention (mount role_name : String)
    (resp : HttpResp) :
    (resp.status = 404 →
      VaultClient.list_role_names mount resp = .ok [] ∧
      VaultClient.get_secret_id_accessors mount role_name resp = .ok []) ∧
    (400 ≤ resp.status → resp.status < 600 → resp.status ≠ 404 →
      VaultClient.list_role_names mount resp =
        .error ⟨resp.status, "v1/auth/" ++ mount ++ "/role?list=true",
          resp.text⟩ ∧
      VaultClient.get_secret_id_accessors mount role_name resp =
        .error ⟨resp.status, "v1/auth/" ++ mount ++ "/role/" ++ role_name
          ++ "/secret-id?list=true", resp.text⟩) ∧
    (resp.respOk = true →
      VaultClient.list_role_names mount resp = .ok resp.keys ∧
      VaultClient.get_secret_id_accessors mount role_name resp =
        .ok resp.keys) := by
  refine ⟨?_, ?_, ?_⟩
  · intro h404
    have hok : resp.respOk = false := by
      simp [HttpResp.respOk, h404]
    constructor
    · simp [VaultClient.list_role_names, hok, h404]
    · simp [VaultClient.get_secret_id_accessors, hok, h404]
  · intro h1 h2 h3
    have hok : resp.respOk = false := by
      simp only [HttpResp.respOk, decide_eq_false_iff_not]
      omega
    constructor
    · simp [VaultClient.list_role_names, hok, h3]
    · simp [VaultClient.get_secret_id_accessors, hok, h3]
  · intro hok
    constructor
    · simp [VaultClient.list_role_names, hok]
    · simp [VaultClient.get_secret_id_accessors, hok]

/-- Counterexample for C9 as frozen: a 302 response is not a 2xx
status, yet neither list operation raises — both return the decoded
body as a success. -/
theorem c9_list_404_convention_counterexample :
    VaultClient.list_role_names "approle" ⟨302, ["role-a"], "redirect"⟩ =
      .ok ["role-a"] ∧
    VaultClient.get_secret_id_accessors "approle" "role-x"
        ⟨302, ["sia-a"], "redirect"⟩ = .ok ["sia-a"] := by
  refine ⟨by decide, by decide⟩

/-- Witness for C9 at the concrete statuses 404 and 500. -/
theorem c9_list_404_convention_witness :
    ((404 : Nat) = 404 ∧
      VaultClient.list_role_names "approle" ⟨404, [], "missing"⟩ =
        .ok [] ∧
      VaultClient.get_secret_id_accessors "approle" "role-x"
        ⟨404, [], "missing"⟩ = .ok []) ∧
    (400 ≤ (500 : Nat) ∧ (500 : Nat) < 600 ∧ (500 : Nat) ≠ 404 ∧
      VaultClient.list_role_names "approle" ⟨500, [], "ise"⟩ =
        .error ⟨500, "v1/auth/approle/role?list=true", "ise"⟩ ∧
      VaultClient.get_secret_id_accessors "approle" "role-x"
          ⟨500, [], "ise"⟩ =
        .error ⟨500, "v1/auth/approle/role/role-x/secret-id?list=true",
          "ise"⟩) :=
  ⟨⟨rfl,
      ((c9_list_404_convention "approle" "role-x"
        ⟨404, [], "missing"⟩).1 rfl).1,
      ((c9_list_404_convention "approle" "role-x"
        ⟨404, [], "missing"⟩).1 rfl).2⟩,
    ⟨by decide, by decide, by decide,
      ((c9_list_404_convention "approle" "role-x" ⟨500, [], "ise"⟩).2.1
        (by decide) (by decide) (by decide)).1,
      ((c9_list_404_convention "approle" "role-x" ⟨500, [], "ise"⟩).2.1
        (by decide) (by decide) (by decide)).2⟩⟩

end Engine

end VaultApproleCli
